import Mathlib

/-!
Verification of `potential_cloud_shadow_snow_mask`
(src/l4-7_cfmask/src/potential_cloud_shadow_snow_mask.c).

The per-pixel logic of the six-pass cloud/shadow/snow mask engine is
embedded shallowly: C `float` arithmetic is modelled by exact rationals
(`ℚ`, total division with `0 / 0 = 0`), C `int16` band samples by `Int`
(with an explicit wrap where the source stores a difference back into an
`int16`), and the bit flags of `pixel_mask` / `clear_mask` by structures
of `Bool`s (the numeric bit layout lives in cfmask.h, outside the
sources verified here; only set/clear/test operations occur).
-/

namespace Cfmask

/-- Modelled from the spec: `MINSIGMA` is defined in const.h, which is not
among the verified sources; the spec describes it as a small positive
epsilon used for float comparisons, e.g. 1e-7. -/
def MINSIGMA : ℚ := 1 / 10000000

/-- Modelled from the spec: `FILL_PIXEL` is defined in const.h, outside the
verified sources; the spec gives the conventional sentinel value -9999. -/
def FILL_PIXEL : Int := -9999

/-- Modelled from the spec: confidence constants live in cfmask.h, outside
the verified sources; the spec fixes LOW=1, MED=2, HIGH=3, FILL=255. -/
def CLOUD_CONFIDENCE_LOW : Nat := 1

def CLOUD_CONFIDENCE_MED : Nat := 2

def CLOUD_CONFIDENCE_HIGH : Nat := 3

def CF_FILL_PIXEL : Nat := 255

/-- One pixel's raw band samples: the six reflective bands
(BI_BLUE .. BI_SWIR_2) and the thermal band, all signed 16-bit samples
in the source (`input->buf[ib][col]`, `input->therm_buf[col]`). -/
structure Pix where
  blue : Int
  green : Int
  red : Int
  nir : Int
  swir1 : Int
  swir2 : Int
  therm : Int
deriving DecidableEq, Repr

/-- Saturation metadata (`input->meta`): per reflective band the
saturation sentinel `satu_value_ref` and replacement `satu_value_max`,
plus the analogous thermal pair. -/
structure Meta where
  satuRefBlue : Int
  satuRefGreen : Int
  satuRefRed : Int
  satuRefNir : Int
  satuRefSwir1 : Int
  satuRefSwir2 : Int
  satuMaxBlue : Int
  satuMaxGreen : Int
  satuMaxRed : Int
  satuMaxNir : Int
  satuMaxSwir1 : Int
  satuMaxSwir2 : Int
  thermSatuRef : Int
  thermSatuMax : Int
deriving DecidableEq, Repr

/-- Saturation substitution for one value:
`if (v == satu_value_ref) v = satu_value_max;`. -/
def substv (refv maxv v : Int) : Int := if v = refv then maxv else v

/-- Pass 1 reflective substitution, lines 159-163: every one of the six
reflective bands is substituted. -/
def substRefl (meta : Meta) (p : Pix) : Pix :=
  { p with
    blue := substv meta.satuRefBlue meta.satuMaxBlue p.blue
    green := substv meta.satuRefGreen meta.satuMaxGreen p.green
    red := substv meta.satuRefRed meta.satuMaxRed p.red
    nir := substv meta.satuRefNir meta.satuMaxNir p.nir
    swir1 := substv meta.satuRefSwir1 meta.satuMaxSwir1 p.swir1
    swir2 := substv meta.satuRefSwir2 meta.satuMaxSwir2 p.swir2 }

/-- Pass 3 reflective substitution, lines 578-582: the loop bound is
`BI_REFL_BAND_COUNT - 1`, so SWIR2 is not substituted there. -/
def substReflNoSwir2 (meta : Meta) (p : Pix) : Pix :=
  { p with
    blue := substv meta.satuRefBlue meta.satuMaxBlue p.blue
    green := substv meta.satuRefGreen meta.satuMaxGreen p.green
    red := substv meta.satuRefRed meta.satuMaxRed p.red
    nir := substv meta.satuRefNir meta.satuMaxNir p.nir
    swir1 := substv meta.satuRefSwir1 meta.satuMaxSwir1 p.swir1 }

/-- Thermal saturation substitution, lines 164-165. -/
def substTherm (meta : Meta) (p : Pix) : Pix :=
  { p with therm := substv meta.thermSatuRef meta.thermSatuMax p.therm }

/-- The full pass-1 per-pixel substitution (reflective then thermal). -/
def subst1 (meta : Meta) (p : Pix) : Pix := substTherm meta (substRefl meta p)

/-- Fill test, lines 171-177: thermal at or below the fill sentinel, or any
reflective band equal to it (applied to the substituted values, as in the
source where substitution precedes the fill test). -/
def isFill (p : Pix) : Bool :=
  decide (p.therm ≤ FILL_PIXEL) || decide (p.blue = FILL_PIXEL)
    || decide (p.green = FILL_PIXEL) || decide (p.red = FILL_PIXEL)
    || decide (p.nir = FILL_PIXEL) || decide (p.swir1 = FILL_PIXEL)
    || decide (p.swir2 = FILL_PIXEL)

/-- The five semantic flags of `pixel_mask` (CF_FILL_BIT, CF_CLOUD_BIT,
CF_SHADOW_BIT, CF_SNOW_BIT, CF_WATER_BIT). -/
structure PixelMask where
  fill : Bool
  cloud : Bool
  shadow : Bool
  snow : Bool
  water : Bool
deriving DecidableEq, Repr

/-- A mask with no bits set. -/
def PixelMask.empty : PixelMask :=
  { fill := false, cloud := false, shadow := false, snow := false, water := false }

/-- `pixel_mask[pixel_index] = CF_FILL_BIT` (line 179): exactly the fill
bit. -/
def fillOnlyMask : PixelMask :=
  { fill := true, cloud := false, shadow := false, snow := false, water := false }

/-- The flags of the scratch `clear_mask` (CF_CLEAR_FILL_BIT, CF_CLEAR_BIT,
CF_CLEAR_LAND_BIT, CF_CLEAR_WATER_BIT). -/
structure ClearMask where
  clearFill : Bool
  clear : Bool
  land : Bool
  water : Bool
deriving DecidableEq, Repr

/-- `clear_mask[pixel_index] = CF_CLEAR_FILL_BIT` (line 180). -/
def clearFillOnly : ClearMask :=
  { clearFill := true, clear := false, land := false, water := false }

/-- `CF_CLEAR_NONE` (line 318). -/
def clearNone : ClearMask :=
  { clearFill := false, clear := false, land := false, water := false }

/-- NDVI, lines 185-193: `(NIR - RED)/(NIR + RED)`, defaulting to 0.01 when
`RED + NIR == 0`. -/
def ndviOf (p : Pix) : ℚ :=
  if p.red + p.nir ≠ 0 then
    ((p.nir : ℚ) - (p.red : ℚ)) / ((p.nir : ℚ) + (p.red : ℚ))
  else 1 / 100

/-- NDSI, lines 195-203: `(GREEN - SWIR1)/(GREEN + SWIR1)`, defaulting to
0.01 when `GREEN + SWIR1 == 0`. -/
def ndsiOf (p : Pix) : ℚ :=
  if p.green + p.swir1 ≠ 0 then
    ((p.green : ℚ) - (p.swir1 : ℚ)) / ((p.green : ℚ) + (p.swir1 : ℚ))
  else 1 / 100

/-- Mean of the visible bands, lines 244-246. -/
def visiMean (p : Pix) : ℚ := ((p.blue : ℚ) + (p.green : ℚ) + (p.red : ℚ)) / 3

/-- The whiteness expression of lines 249-253 (only meaningful when
`visiMean p ≠ 0`). -/
def whitenessRaw (p : Pix) : ℚ :=
  (|(p.blue : ℚ) - visiMean p| + |(p.green : ℚ) - visiMean p|
    + |(p.red : ℚ) - visiMean p|) / visiMean p

/-- HOT transform, lines 292-294: `BLUE - 0.5*RED - 800`. -/
def hotOf (p : Pix) : ℚ := (p.blue : ℚ) - (1 / 2) * (p.red : ℚ) - 800

/-- Visible-band saturation test, lines 266-277: any of BLUE/GREEN/RED at or
above `satu_value_max - 1` sets `satu_bv = 1`. -/
def satuBV (meta : Meta) (p : Pix) : Bool :=
  decide (p.blue ≥ meta.satuMaxBlue - 1)
    || decide (p.green ≥ meta.satuMaxGreen - 1)
    || decide (p.red ≥ meta.satuMaxRed - 1)

/-- Basic cloud test, lines 206-209 (equation 1). -/
def basicCloudTest (p : Pix) : Bool :=
  decide (ndsiOf p - 4 / 5 < MINSIGMA) && decide (ndviOf p - 4 / 5 < MINSIGMA)
    && decide (p.swir2 > 300) && decide (p.therm < 2700)

/-- Snow test, lines 218-221 (equation 20). -/
def snowTest (p : Pix) : Bool :=
  decide (ndsiOf p - 3 / 20 > MINSIGMA) && decide (p.therm < 1000)
    && decide (p.nir > 1100) && decide (p.green > 1000)

/-- Water test, lines 229-233 (equation 5). -/
def waterTest (p : Pix) : Bool :=
  (decide (ndviOf p - 1 / 100 < MINSIGMA) && decide (p.nir < 1100))
    || (decide (ndviOf p - 1 / 10 < MINSIGMA) && decide (ndviOf p > MINSIGMA)
          && decide (p.nir < 500))

/-- Pass 1 body, lines 185-337, for a non-fill pixel `p` (already
substituted).  `m0` is the incoming `pixel_mask` entry and `w0` the
incoming value of the function-scoped `whiteness` variable, which is only
assigned inside the cloud branch and is therefore threaded through the
pixel loop.  Returns the updated mask, the `clear_mask` entry and the
updated `whiteness` variable. -/
def pass1NonFill (meta : Meta) (m0 : PixelMask) (w0 : ℚ) (p : Pix) :
    PixelMask × ClearMask × ℚ :=
  let m1 := { m0 with cloud := basicCloudTest p }
  let m2 := { m1 with snow := snowTest p }
  let m3 := { m2 with water := waterTest p }
  let w1 := if m3.cloud then (if visiMean p ≠ 0 then whitenessRaw p else 100) else w0
  let s := satuBV meta p
  let w2 := if s then 0 else w1
  let m4 := { m3 with cloud := m3.cloud && decide (w2 - 7 / 10 < MINSIGMA) }
  let m5 := { m4 with cloud := m4.cloud && (decide (hotOf p > MINSIGMA) || s) }
  let m6 := { m5 with
    cloud := m5.cloud && (decide (p.swir1 ≠ 0)
      && decide ((p.nir : ℚ) / (p.swir1 : ℚ) - 3 / 4 > MINSIGMA)) }
  let cm := if m6.cloud then clearNone
    else if m6.water then
      { clearFill := false, clear := true, land := false, water := true }
    else { clearFill := false, clear := true, land := true, water := false }
  (m6, cm, w2)

/-- Pass 1 for one pixel, lines 154-338: saturation substitution, the fill
test (fill pixels get exactly the fill bits and are skipped), then the
spectral classification.  The final `Bool` records whether the pixel
counted into `image_data_counter`. -/
def pass1Pixel (meta : Meta) (m0 : PixelMask) (w0 : ℚ) (praw : Pix) :
    PixelMask × ClearMask × ℚ × Bool :=
  let p := subst1 meta praw
  if isFill p then (fillOnlyMask, clearFillOnly, w0, false)
  else
    let r := pass1NonFill meta m0 w0 p
    (r.1, r.2.1, r.2.2, true)

/-- The whiteness rule of pass 1's cloud branch, lines 242-281: the raw
whiteness expression, `100` when the visible mean is zero (line 259), and
the unconditional override to `0` when a visible band is saturated
(line 275). -/
def pass1Whiteness (meta : Meta) (p : Pix) : ℚ :=
  let w := if visiMean p ≠ 0 then whitenessRaw p else 100
  if satuBV meta p then 0 else w

/-- The whiteness rule of pass 3's land branch, lines 644-671: the same raw
expression, but `0` when the visible mean is zero (line 658), and the same
saturation override to `0` (line 670). -/
def pass3Whiteness (meta : Meta) (p : Pix) : ℚ :=
  let w := if visiMean p ≠ 0 then whitenessRaw p else 0
  if satuBV meta p then 0 else w

/-- Result of the pass-1 scan over the scene: the populated `pixel_mask`
and `clear_mask` planes, the four scene counters of lines 58-61, and the
final value of the threaded `whiteness` variable. -/
structure P1Out where
  masks : List PixelMask
  clears : List ClearMask
  imageData : Nat
  clearCnt : Nat
  landCnt : Nat
  waterCnt : Nat
  w : ℚ
deriving Repr

/-- The pass-1 pixel loop (lines 121-339) over a flattened scene, threading
the `whiteness` variable `w` left to right; each entry pairs a pixel's raw
bands with the caller's incoming `pixel_mask` entry. -/
def pass1Go (meta : Meta) (w : ℚ) : List (Pix × PixelMask) → P1Out
  | [] => { masks := [], clears := [], imageData := 0, clearCnt := 0,
            landCnt := 0, waterCnt := 0, w := w }
  | (p, m) :: rest =>
    let r := pass1Pixel meta m w p
    let out := pass1Go meta r.2.2.1 rest
    { masks := r.1 :: out.masks
      clears := r.2.1 :: out.clears
      imageData := (if r.2.2.2 then 1 else 0) + out.imageData
      clearCnt := (if r.2.1.clear then 1 else 0) + out.clearCnt
      landCnt := (if r.2.1.clear && r.2.1.land then 1 else 0) + out.landCnt
      waterCnt := (if r.2.1.clear && r.2.1.water then 1 else 0) + out.waterCnt
      w := out.w }

/-- Pass 1 over the whole scene; `whiteness` starts at `0.0` (line 66). -/
def pass1Image (meta : Meta) (pixels : List (Pix × PixelMask)) : P1Out :=
  pass1Go meta 0 pixels

/-- `*clear_ptm = 100 * clear / image_data` (lines 342-343); in this
embedding rational division is total with `0 / 0 = 0`. -/
def clearPtm (o : P1Out) : ℚ := 100 * ((o.clearCnt : ℚ) / (o.imageData : ℚ))

/-- `land_ptm` (lines 344-345). -/
def landPtm (o : P1Out) : ℚ := 100 * ((o.landCnt : ℚ) / (o.imageData : ℚ))

/-- `water_ptm` (lines 346-347). -/
def waterPtm (o : P1Out) : ℚ := 100 * ((o.waterCnt : ℚ) / (o.imageData : ℚ))

/-- The all-cloud shortcut test, line 359:
`(*clear_ptm - 0.1) <= MINSIGMA`. -/
def tookShortcut (o : P1Out) : Bool := decide (clearPtm o - 1 / 10 ≤ MINSIGMA)

/-- One iteration of the shortcut loop, lines 364-371: every pixel (fill
included) gets SHADOW iff CLOUD is not set. -/
def shortcutPixel (m : PixelMask) : PixelMask :=
  if ¬ m.cloud then { m with shadow := true } else { m with shadow := false }

/-- The data returned on the all-cloud shortcut path: `clear_ptm`,
`t_templ = t_temph = -1.0` (lines 362-363) and the rewritten mask plane. -/
structure ShortcutResult where
  clearPtmV : ℚ
  tTempl : ℚ
  tTemph : ℚ
  masks : List PixelMask
deriving DecidableEq, Repr

/-- Pass 1 followed by the branch at line 359.  `some r` models the
shortcut path (lines 359-372), which skips every remaining pass and falls
through to the successful return; `none` stands for entering the full
P2-P6 path, whose per-pixel content is modelled by `pass4Pixel`,
`pass6Pixel` and `fullPathPixel` below. -/
def engineResult (meta : Meta) (pixels : List (Pix × PixelMask)) :
    Option ShortcutResult :=
  let o := pass1Image meta pixels
  if tookShortcut o then
    some { clearPtmV := clearPtm o, tTempl := -1, tTemph := -1,
           masks := o.masks.map shortcutPixel }
  else none

/-- Line 342 under IEEE float semantics: when `image_data_counter = 0` the
division is `0.0f / 0.0f = NaN` (the pass-1 scan gives
`clearCnt ≤ imageData`, so the zero-denominator case is exactly 0/0),
modelled as `none`; otherwise the exact value. -/
def clearPtmF (o : P1Out) : Option ℚ :=
  if o.imageData = 0 then none else some (clearPtm o)

/-- The shortcut test of line 359 under IEEE float semantics: an ordered
comparison against NaN is false, so a NaN `clear_ptm` never takes the
shortcut. -/
def tookShortcutF (o : P1Out) : Bool :=
  match clearPtmF o with
  | none => false
  | some q => decide (q - 1 / 10 ≤ MINSIGMA)

/-- The clear-land thermal sample collected by pass 2 (lines 437-468) from
a scene given as clear-mask/raw-thermal pairs: `CLEAR_FILL` pixels are
skipped (line 441), the surviving pixels matching the chosen statistic
bit (`land_bit` or, identically shaped, `water_bit`) contribute their
saturation-substituted thermal value. -/
def pass2LandSample (meta : Meta) (bit : ClearMask → Bool)
    (xs : List (ClearMask × Int)) : List Int :=
  (xs.filter fun x => !x.1.clearFill && bit x.1).map
    fun x => substv meta.thermSatuRef meta.thermSatuMax x.2

/-- Modelled from the spec: the percentile collaborator `prctile` lives in
misc.c, outside the verified sources; its contract requires that a sample
count of 0 "must still produce 0 without failure".  This is its value on
an empty sample, the only case needed here. -/
def prctileEmptySample : ℚ := 0

/-- `t_templ` as exported by pass 2 when the land sample is empty:
`prctile` of the empty sample, then the `t_buffer = 400` subtraction of
lines 514-515. -/
def tTemplEmptyLandSample : ℚ := prctileEmptySample - 400

/-- `t_temph` for an empty land sample (lines 497-498 and 516). -/
def tTemphEmptyLandSample : ℚ := prctileEmptySample + 400

/-- Pass 4 for one pixel, lines 808-867: fill pixels are skipped; otherwise
after thermal saturation substitution the three-way confidence decision is
taken top-down and the CLOUD bit rewritten.  `t_buffer` is `4 * 100`
(line 514). -/
def pass4Pixel (meta : Meta) (clrMask wclrMask tTempl : ℚ) (m : PixelMask)
    (conf : Nat) (finalProb wfinalProb : ℚ) (thermRaw : Int) :
    PixelMask × Nat :=
  if m.fill then (m, conf)
  else
    let t := substv meta.thermSatuRef meta.thermSatuMax thermRaw
    if (m.cloud ∧ finalProb > clrMask ∧ ¬ m.water)
        ∨ (m.cloud ∧ wfinalProb > wclrMask ∧ m.water)
        ∨ ((t : ℚ) < tTempl + 400 - 3500) then
      ({ m with cloud := true }, CLOUD_CONFIDENCE_HIGH)
    else if (m.cloud ∧ finalProb > clrMask - 10 ∧ ¬ m.water)
        ∨ (m.cloud ∧ wfinalProb > wclrMask - 10 ∧ m.water) then
      ({ m with cloud := false }, CLOUD_CONFIDENCE_MED)
    else
      ({ m with cloud := false }, CLOUD_CONFIDENCE_LOW)

/-- Wrap of an `Int` into the signed 16-bit range, modelling the store of
`filled - original` into the `int16` locals `new_nir` / `new_swir1`
(lines 1051-1052, 1109-1112). -/
def toInt16 (z : Int) : Int := (z + 32768) % 65536 - 32768

/-- Pass 6 for one pixel, lines 1086-1130: NIR/SWIR1 saturation
substitution, `conf_mask = CF_FILL_PIXEL` and skip on fill, the shadow
bit from `min(filled_nir - NIR, filled_swir1 - SWIR1) > 200`, then the
water/cloud refinement. -/
def pass6Pixel (meta : Meta) (filledNir filledSwir1 : Int) (praw : Pix)
    (m : PixelMask) (conf : Nat) : PixelMask × Nat :=
  let nirv := substv meta.satuRefNir meta.satuMaxNir praw.nir
  let swir1v := substv meta.satuRefSwir1 meta.satuMaxSwir1 praw.swir1
  if m.fill then (m, CF_FILL_PIXEL)
  else
    let newNir := toInt16 (filledNir - nirv)
    let newSwir1 := toInt16 (filledSwir1 - swir1v)
    let shadowProb := if newNir < newSwir1 then newNir else newSwir1
    let m1 := if shadowProb > 200 then { m with shadow := true }
      else { m with shadow := false }
    let m2 := if m1.water ∧ m1.cloud then { m1 with water := false } else m1
    (m2, conf)

/-- The pixel-mask / confidence evolution of one pixel along the full
(non-shortcut) path: pass 1, then pass 4 (passes 2, 3 and 5 never write
`pixel_mask` or `conf_mask`), then pass 6.  The probability inputs
`finalProb`/`wfinalProb`, the thresholds and the flood-fill outputs
`filledNir`/`filledSwir1` are parameters, computed by passes 2-5 and the
out-of-scope flood-fill collaborator. -/
def fullPathPixel (meta : Meta) (clrMask wclrMask tTempl finalProb wfinalProb : ℚ)
    (filledNir filledSwir1 : Int) (m0 : PixelMask) (conf0 : Nat) (w0 : ℚ)
    (praw : Pix) : PixelMask × Nat :=
  let r1 := pass1Pixel meta m0 w0 praw
  let r4 := pass4Pixel meta clrMask wclrMask tTempl r1.1 conf0 finalProb
    wfinalProb praw.therm
  pass6Pixel meta filledNir filledSwir1 praw r4.1 r4.2

/-! ### Buffer lifecycle model

The engine owns thirteen scratch buffers.  `RETURN_ERROR` (error.h, outside
the verified sources) logs and returns `FAILURE`; it frees nothing, as the
source itself shows by freeing `filled_nir_data` / `filled_swir1_data`
explicitly before invoking it on the flood-fill failure path
(lines 1040-1046).  The trace below lists, in source order, every
allocation, every `free`, and every failure site together with the buffers
the source frees at that site before returning. -/

/-- The buffers owned by `potential_cloud_shadow_snow_mask`. -/
inductive Buf
  | clearMask
  | fTemp
  | fWtemp
  | wfinalProb
  | finalProb
  | prob
  | wprob
  | nirArr
  | swir1Arr
  | nirData
  | swir1Data
  | filledNirData
  | filledSwir1Data
deriving DecidableEq, Repr

/-- The failure sites of the operation, in source order. -/
inductive FailSite
  | p1ReadRefl
  | p1ReadTherm
  | tempAlloc
  | p2ReadTherm
  | prctileTempl
  | prctileTemph
  | prctileWtemp
  | probAllocPair
  | p3ReadRefl
  | p3ReadTherm
  | probAlloc
  | prctile2Land
  | wprobAlloc
  | prctile2Water
  | p4ReadTherm
  | nirSwirAlloc
  | dataAlloc
  | p5ReadRefl
  | prctileNirBoundary
  | prctileSwir1Boundary
  | floodFill
  | p6ReadRefl
  | p6ReadTherm
deriving DecidableEq, Repr

/-- One event of the buffer-lifecycle trace. -/
inductive Ev
  | alloc (b : Buf)
  | free (b : Buf)
  | site (s : FailSite) (freedHere : List Buf)

/-- The alloc/free/failure-site trace of the operation, in source order.
For the paired allocations (lines 375-381, 525-531, 879-885, 890-899) the
failure site is placed after the allocations that the source performs
before the NULL check, modelling the path on which the earlier `calloc`s
of the group succeeded and the last one failed; for the single
allocations (`prob`, `wprob`) the site precedes the alloc event, since a
failed `malloc` leaves nothing newly owned. -/
def pcloudTrace : List Ev :=
  [ .alloc .clearMask,                      -- line 111
    .site .p1ReadRefl [],                   -- line 142
    .site .p1ReadTherm [],                  -- line 151
    .alloc .fTemp,                          -- line 375
    .site .tempAlloc [],                    -- line 380: f_wtemp calloc failed
    .alloc .fWtemp,                         -- line 376
    .site .p2ReadTherm [],                  -- line 434
    .site .prctileTempl [],                 -- line 493
    .site .prctileTemph [],                 -- line 502
    .site .prctileWtemp [],                 -- line 510
    .free .fWtemp,                          -- line 520
    .free .fTemp,                           -- line 522
    .alloc .wfinalProb,                     -- line 525
    .site .probAllocPair [],                -- line 530: final_prob calloc failed
    .alloc .finalProb,                      -- line 526
    .site .p3ReadRefl [],                   -- line 558
    .site .p3ReadTherm [],                  -- line 567
    .site .probAlloc [],                    -- line 695: prob malloc failed
    .alloc .prob,                           -- line 691
    .site .prctile2Land [],                 -- line 726
    .free .prob,                            -- line 731
    .site .wprobAlloc [],                   -- line 739: wprob malloc failed
    .alloc .wprob,                          -- line 735
    .site .prctile2Water [],                -- line 770
    .free .wprob,                           -- line 775
    .site .p4ReadTherm [],                  -- line 805
    .free .wfinalProb,                      -- line 872
    .free .finalProb,                       -- line 874
    .alloc .nirArr,                         -- line 879
    .site .nirSwirAlloc [],                 -- line 884: swir1 calloc failed
    .alloc .swir1Arr,                       -- line 880
    .alloc .nirData,                        -- line 890
    .alloc .swir1Data,                      -- line 891
    .alloc .filledNirData,                  -- line 892
    .site .dataAlloc [],                    -- line 898: filled_swir1 failed
    .alloc .filledSwir1Data,                -- line 893
    .site .p5ReadRefl [],                   -- line 929
    .site .prctileNirBoundary [],           -- line 986
    .site .prctileSwir1Boundary [],         -- line 993
    .free .nirArr,                          -- line 997
    .free .swir1Arr,                        -- line 998
    .free .nirData,                         -- line 1035
    .free .swir1Data,                       -- line 1036
    .site .floodFill [.filledNirData, .filledSwir1Data], -- lines 1040-1045
    .site .p6ReadRefl [],                   -- line 1074
    .site .p6ReadTherm [],                  -- line 1083
    .free .nirData,                         -- line 1135 (already NULL; no-op)
    .free .swir1Data,                       -- line 1137 (already NULL; no-op)
    .free .filledNirData,                   -- line 1139
    .free .filledSwir1Data,                 -- line 1141
    .free .clearMask ]                      -- line 1145

/-- Walk a trace up to failure site `s`, maintaining the live-buffer set;
at the site, the buffers the source frees there are removed and the
remainder is what the failing return leaks. -/
def liveGo (s : FailSite) : List Ev → List Buf → List Buf
  | [], live => live
  | .alloc b :: rest, live => liveGo s rest (live ++ [b])
  | .free b :: rest, live => liveGo s rest (live.erase b)
  | .site s' fs :: rest, live =>
    if s' = s then fs.foldl (fun l b => l.erase b) live
    else liveGo s rest live

/-- The buffers still allocated when the operation returns `FAILURE` from
failure site `s`. -/
def liveAtFailure (s : FailSite) : List Buf := liveGo s pcloudTrace []

/-- Walk the whole trace ignoring failure sites: the successful path. -/
def liveAll : List Ev → List Buf → List Buf
  | [], live => live
  | .alloc b :: rest, live => liveAll rest (live ++ [b])
  | .free b :: rest, live => liveAll rest (live.erase b)
  | .site _ _ :: rest, live => liveAll rest live

/-- The buffers still allocated at the successful return (line 1148). -/
def liveAtSuccess : List Buf := liveAll pcloudTrace []

/-! ### Concrete scenes used by witnesses and counterexamples -/

/-- Metadata with all saturation sentinels and replacements at 20000, the
conventional Landsat saturation level. -/
def meta0 : Meta :=
  { satuRefBlue := 20000, satuRefGreen := 20000, satuRefRed := 20000,
    satuRefNir := 20000, satuRefSwir1 := 20000, satuRefSwir2 := 20000,
    satuMaxBlue := 20000, satuMaxGreen := 20000, satuMaxRed := 20000,
    satuMaxNir := 20000, satuMaxSwir1 := 20000, satuMaxSwir2 := 20000,
    thermSatuRef := 20000, thermSatuMax := 20000 }

/-- A pixel whose every band is the fill sentinel. -/
def fillPix : Pix :=
  { blue := FILL_PIXEL, green := FILL_PIXEL, red := FILL_PIXEL,
    nir := FILL_PIXEL, swir1 := FILL_PIXEL, swir2 := FILL_PIXEL,
    therm := FILL_PIXEL }

/-- A saturated bright pixel that the pass-1 chain classifies as cloud. -/
def cloudPix : Pix :=
  { blue := 20000, green := 20000, red := 20000, nir := 20000,
    swir1 := 20000, swir2 := 20000, therm := 2000 }

/-- A clear-land vegetation pixel (spec scenario 2). -/
def vegPix : Pix :=
  { blue := 400, green := 500, red := 600, nir := 3000, swir1 := 1500,
    swir2 := 800, therm := 2500 }

/-- A non-fill, non-water pixel whose visible bands sum to zero, so the
visible mean is zero, while the basic cloud test passes and no visible
band is saturated. -/
def zeroMeanPix : Pix :=
  { blue := -400, green := 100, red := 300, nir := 500, swir1 := 1000,
    swir2 := 400, therm := 2000 }

/-! ### Helper lemmas -/

/-- Pass 1 leaves the fill bit of a non-fill pixel at its incoming value. -/
theorem pass1NonFill_fill (meta : Meta) (m0 : PixelMask) (w0 : ℚ) (p : Pix) :
    (pass1NonFill meta m0 w0 p).1.fill = m0.fill := rfl

/-- Pass 1 leaves the shadow bit of a non-fill pixel at its incoming
value. -/
theorem pass1NonFill_shadow (meta : Meta) (m0 : PixelMask) (w0 : ℚ) (p : Pix) :
    (pass1NonFill meta m0 w0 p).1.shadow = m0.shadow := rfl

/-- Pass 4 never changes the fill, shadow, snow or water bits. -/
theorem pass4Pixel_frame (meta : Meta) (clrM wclrM tT : ℚ) (m : PixelMask)
    (conf : Nat) (fp wfp : ℚ) (traw : Int) :
    (pass4Pixel meta clrM wclrM tT m conf fp wfp traw).1.fill = m.fill
    ∧ (pass4Pixel meta clrM wclrM tT m conf fp wfp traw).1.shadow = m.shadow
    ∧ (pass4Pixel meta clrM wclrM tT m conf fp wfp traw).1.snow = m.snow
    ∧ (pass4Pixel meta clrM wclrM tT m conf fp wfp traw).1.water = m.water := by
  simp only [pass4Pixel]
  split_ifs <;> exact ⟨rfl, rfl, rfl, rfl⟩

/-- Pass 6 never changes the fill, snow or cloud bits. -/
theorem pass6Pixel_frame (meta : Meta) (fN fS : Int) (praw : Pix)
    (m : PixelMask) (conf : Nat) :
    (pass6Pixel meta fN fS praw m conf).1.fill = m.fill
    ∧ (pass6Pixel meta fN fS praw m conf).1.snow = m.snow
    ∧ (pass6Pixel meta fN fS praw m conf).1.cloud = m.cloud := by
  simp only [pass6Pixel]
  split_ifs <;> exact ⟨rfl, rfl, rfl⟩

/-- A fill-data pixel gets exactly the fill bits, whatever mask came in. -/
theorem pass1Pixel_of_fill (meta : Meta) (m0 : PixelMask) (w0 : ℚ) (praw : Pix)
    (h : isFill (subst1 meta praw) = true) :
    pass1Pixel meta m0 w0 praw = (fillOnlyMask, clearFillOnly, w0, false) := by
  unfold pass1Pixel
  simp [h]

/-- A non-fill-data pixel goes through the spectral classification. -/
theorem pass1Pixel_of_nonfill (meta : Meta) (m0 : PixelMask) (w0 : ℚ)
    (praw : Pix) (h : isFill (subst1 meta praw) = false) :
    (pass1Pixel meta m0 w0 praw).1
      = (pass1NonFill meta m0 w0 (subst1 meta praw)).1 := by
  unfold pass1Pixel
  simp [h]

/-! ### C1 — the pass-1 cloud chain -/

/-- C1.  For every non-fill pixel, after pass 1 the CLOUD bit is set iff
the four chained tests all pass: the basic cloud test (`ndsi < 0.8`,
`ndvi < 0.8`, `SWIR2 > 300`, `thermal < 2700`), then `whiteness < 0.7`
(with whiteness `100` when the visible mean is zero and forced to `0`
under the visible-band saturation override), then `hot > 0` or `satu_bv`,
then `SWIR1 ≠ 0` and `NIR/SWIR1 > 0.75`; ndvi and ndsi default to 0.01 on
a zero denominator and the float comparisons use the MINSIGMA epsilon.
If any later test fails the CLOUD bit ends cleared. -/
theorem cloud_chain_p1 (meta : Meta) (m0 : PixelMask) (w0 : ℚ) (praw : Pix)
    (hnf : isFill (subst1 meta praw) = false) :
    (pass1Pixel meta m0 w0 praw).1.cloud =
      (basicCloudTest (subst1 meta praw)
        && decide (pass1Whiteness meta (subst1 meta praw) - 7 / 10 < MINSIGMA)
        && (decide (hotOf (subst1 meta praw) > MINSIGMA)
              || satuBV meta (subst1 meta praw))
        && (decide ((subst1 meta praw).swir1 ≠ 0)
              && decide (((subst1 meta praw).nir : ℚ)
                    / ((subst1 meta praw).swir1 : ℚ) - 3 / 4 > MINSIGMA))) := by
  rw [pass1Pixel_of_nonfill meta m0 w0 praw hnf]
  set p := subst1 meta praw with hp
  by_cases hb : basicCloudTest p = true
  · by_cases hs : satuBV meta p = true
    · simp [pass1NonFill, pass1Whiteness, hb, hs, Bool.and_assoc]
    · simp only [Bool.not_eq_true] at hs
      simp [pass1NonFill, pass1Whiteness, hb, hs, Bool.and_assoc]
  · simp only [Bool.not_eq_true] at hb
    simp [pass1NonFill, hb]

/-- Witness for C1 at the clear-land vegetation pixel of spec scenario 2:
the pixel is non-fill and the chain fails at the HOT test, so CLOUD ends
cleared. -/
theorem cloud_chain_p1_witness :
    isFill (subst1 meta0 vegPix) = false
    ∧ (pass1Pixel meta0 PixelMask.empty 0 vegPix).1.cloud =
        (basicCloudTest (subst1 meta0 vegPix)
          && decide (pass1Whiteness meta0 (subst1 meta0 vegPix) - 7 / 10 < MINSIGMA)
          && (decide (hotOf (subst1 meta0 vegPix) > MINSIGMA)
                || satuBV meta0 (subst1 meta0 vegPix))
          && (decide ((subst1 meta0 vegPix).swir1 ≠ 0)
                && decide (((subst1 meta0 vegPix).nir : ℚ)
                      / ((subst1 meta0 vegPix).swir1 : ℚ) - 3 / 4 > MINSIGMA))) :=
  ⟨by norm_num [isFill, subst1, substRefl, substTherm, substv, meta0, vegPix,
      FILL_PIXEL],
   cloud_chain_p1 meta0 PixelMask.empty 0 vegPix
     (by norm_num [isFill, subst1, substRefl, substTherm, substv, meta0,
        vegPix, FILL_PIXEL])⟩

/-! ### C2 — the pass-4 confidence decision -/

/-- C2.  For every non-fill pixel (after thermal saturation substitution)
pass 4 assigns HIGH and sets CLOUD exactly when
(CLOUD ∧ ¬WATER ∧ final_prob > clr_mask) ∨
(CLOUD ∧ WATER ∧ wfinal_prob > wclr_mask) ∨
thermal < t_templ + 400 - 3500; otherwise MED (clearing CLOUD) exactly
when (CLOUD ∧ ¬WATER ∧ final_prob > clr_mask - 10) ∨
(CLOUD ∧ WATER ∧ wfinal_prob > wclr_mask - 10); otherwise LOW, clearing
CLOUD.  Cases are decided top-down and after the pass HIGH implies CLOUD
set while MED or LOW implies CLOUD cleared. -/
theorem confidence_decision_p4 (meta : Meta) (clrM wclrM tT : ℚ)
    (m : PixelMask) (conf : Nat) (fp wfp : ℚ) (traw : Int)
    (hnf : m.fill = false) :
    ((pass4Pixel meta clrM wclrM tT m conf fp wfp traw).2 = CLOUD_CONFIDENCE_HIGH
        ↔ ((m.cloud ∧ fp > clrM ∧ ¬ m.water) ∨ (m.cloud ∧ wfp > wclrM ∧ m.water)
            ∨ ((substv meta.thermSatuRef meta.thermSatuMax traw : ℚ)
                  < tT + 400 - 3500)))
    ∧ ((pass4Pixel meta clrM wclrM tT m conf fp wfp traw).2 = CLOUD_CONFIDENCE_MED
        ↔ (¬ ((m.cloud ∧ fp > clrM ∧ ¬ m.water) ∨ (m.cloud ∧ wfp > wclrM ∧ m.water)
                ∨ ((substv meta.thermSatuRef meta.thermSatuMax traw : ℚ)
                      < tT + 400 - 3500))
            ∧ ((m.cloud ∧ fp > clrM - 10 ∧ ¬ m.water)
                ∨ (m.cloud ∧ wfp > wclrM - 10 ∧ m.water))))
    ∧ ((pass4Pixel meta clrM wclrM tT m conf fp wfp traw).1.cloud = true
        ↔ (pass4Pixel meta clrM wclrM tT m conf fp wfp traw).2
            = CLOUD_CONFIDENCE_HIGH)
    ∧ ((pass4Pixel meta clrM wclrM tT m conf fp wfp traw).2 = CLOUD_CONFIDENCE_MED
          ∨ (pass4Pixel meta clrM wclrM tT m conf fp wfp traw).2
              = CLOUD_CONFIDENCE_LOW
        → (pass4Pixel meta clrM wclrM tT m conf fp wfp traw).1.cloud = false) := by
  unfold pass4Pixel
  simp only [hnf, Bool.false_eq_true, if_false]
  split
  · simp_all [CLOUD_CONFIDENCE_HIGH, CLOUD_CONFIDENCE_MED, CLOUD_CONFIDENCE_LOW]
  · split
    · simp_all [CLOUD_CONFIDENCE_HIGH, CLOUD_CONFIDENCE_MED,
        CLOUD_CONFIDENCE_LOW]
    · simp_all [CLOUD_CONFIDENCE_HIGH, CLOUD_CONFIDENCE_MED,
        CLOUD_CONFIDENCE_LOW]

/-- Witness for C2: a non-fill cloud-flagged land pixel whose probability
exceeds the threshold, landing in the HIGH case with CLOUD set. -/
theorem confidence_decision_p4_witness :
    ({ fill := false, cloud := true, shadow := false, snow := false,
       water := false } : PixelMask).fill = false
    ∧ ((pass4Pixel meta0 50 50 2000
          { fill := false, cloud := true, shadow := false, snow := false,
            water := false } 0 80 0 2500).2 = CLOUD_CONFIDENCE_HIGH
        ↔ ((true = true ∧ (80:ℚ) > 50 ∧ ¬ false = true)
            ∨ (true = true ∧ (0:ℚ) > 50 ∧ false = true)
            ∨ ((substv meta0.thermSatuRef meta0.thermSatuMax 2500 : ℚ)
                  < 2000 + 400 - 3500))) := by
  refine ⟨rfl, ?_⟩
  exact (confidence_decision_p4 meta0 50 50 2000
    { fill := false, cloud := true, shadow := false, snow := false,
      water := false } 0 80 0 2500 rfl).1

/-! ### C3 — FILL exclusivity -/

/-- Pass 1 on a pixel whose every band is the fill sentinel yields exactly
the fill bits, for any metadata whose thermal saturation sentinel is not
the fill value. -/
theorem pass1Pixel_fillPix (meta : Meta) (hsane : meta.thermSatuRef ≠ FILL_PIXEL)
    (m0 : PixelMask) (w0 : ℚ) :
    pass1Pixel meta m0 w0 fillPix = (fillOnlyMask, clearFillOnly, w0, false) := by
  apply pass1Pixel_of_fill
  have ht : (subst1 meta fillPix).therm = FILL_PIXEL := by
    simp only [subst1, substTherm, substRefl, substv, fillPix]
    rw [if_neg]
    intro h
    exact hsane h.symm
  simp [isFill, ht]

/-- Pass-1 scan of an all-fill scene: every mask is exactly FILL, every
clear-mask entry is exactly CLEAR_FILL, and all four counters are zero. -/
theorem pass1Go_all_fill (meta : Meta) (hsane : meta.thermSatuRef ≠ FILL_PIXEL)
    (w : ℚ) (pixels : List (Pix × PixelMask))
    (hfill : ∀ x ∈ pixels, x.1 = fillPix) :
    pass1Go meta w pixels =
      { masks := pixels.map fun _ => fillOnlyMask,
        clears := pixels.map fun _ => clearFillOnly,
        imageData := 0, clearCnt := 0, landCnt := 0, waterCnt := 0, w := w } := by
  induction pixels with
  | nil => rfl
  | cons x rest ih =>
    obtain ⟨p, m⟩ := x
    have hp : p = fillPix := hfill (p, m) (List.mem_cons_self _ _)
    subst hp
    have hr := pass1Pixel_fillPix meta hsane m w
    simp only [pass1Go, hr, ih fun y hy => hfill y (List.mem_cons_of_mem _ hy)]
    simp [clearFillOnly]

/-- Counterexample to C3 as stated: a two-pixel scene holding one non-fill
all-cloud pixel and one fill pixel has `image_data_counter = 1` and
`clear_ptm = 0/1 = 0` exactly (no NaN: the float shortcut test of
line 359 fires too, `tookShortcutF = true`), so the program takes the
all-cloud shortcut, whose pixel loop (lines 364-371) has no fill guard:
the fill pixel leaves the operation with both FILL and SHADOW set. -/
theorem fill_exclusivity_shortcut_cex :
    tookShortcutF (pass1Image meta0
        [(cloudPix, PixelMask.empty), (fillPix, PixelMask.empty)]) = true
    ∧ (engineResult meta0
          [(cloudPix, PixelMask.empty), (fillPix, PixelMask.empty)]).map
        ShortcutResult.masks
      = some [{ fill := false, cloud := true, shadow := false, snow := false,
                water := false },
              { fill := true, cloud := false, shadow := true, snow := false,
                water := false }] := by
  have h1 : pass1Image meta0
      [(cloudPix, PixelMask.empty), (fillPix, PixelMask.empty)] =
      { masks := [{ fill := false, cloud := true, shadow := false,
                    snow := false, water := false }, fillOnlyMask],
        clears := [clearNone, clearFillOnly],
        imageData := 1, clearCnt := 0, landCnt := 0, waterCnt := 0,
        w := 0 } := by
    norm_num [pass1Image, pass1Go, pass1Pixel, pass1NonFill, subst1,
      substRefl, substTherm, substv, isFill, meta0, cloudPix, fillPix,
      FILL_PIXEL, basicCloudTest, snowTest, waterTest, ndviOf, ndsiOf,
      visiMean, whitenessRaw, hotOf, satuBV, MINSIGMA, clearNone,
      clearFillOnly, fillOnlyMask, PixelMask.empty]
  refine ⟨?_, ?_⟩
  · rw [h1]
    norm_num [tookShortcutF, clearPtmF, clearPtm, MINSIGMA]
  · simp only [engineResult, h1]
    norm_num [tookShortcut, clearPtm, MINSIGMA, shortcutPixel, fillOnlyMask]

/-- C3, amended: the exclusivity invariant holds after pass 1 and along
the full six-pass path (the all-cloud shortcut instead adds SHADOW to fill
pixels, see the counterexample).  With a cleared incoming mask entry:
after pass 1 a set FILL bit means the mask is exactly FILL; on the full
path such a pixel is skipped by passes 4 and 6, so its mask is still
exactly FILL at the successful return and pass 6 writes
`conf_mask = FILL_PIXEL` for it. -/
theorem fill_exclusive_full_path (meta : Meta) (clrM wclrM tT fp wfp : ℚ)
    (fN fS : Int) (conf0 : Nat) (w0 : ℚ) (praw : Pix)
    (hfill : (pass1Pixel meta PixelMask.empty w0 praw).1.fill = true) :
    (pass1Pixel meta PixelMask.empty w0 praw).1 = fillOnlyMask
    ∧ (fullPathPixel meta clrM wclrM tT fp wfp fN fS PixelMask.empty conf0 w0
        praw).1 = fillOnlyMask
    ∧ (fullPathPixel meta clrM wclrM tT fp wfp fN fS PixelMask.empty conf0 w0
        praw).2 = CF_FILL_PIXEL := by
  by_cases hdata : isFill (subst1 meta praw) = true
  · have h1 : (pass1Pixel meta PixelMask.empty w0 praw).1 = fillOnlyMask := by
      rw [pass1Pixel_of_fill meta PixelMask.empty w0 praw hdata]
    refine ⟨h1, ?_, ?_⟩ <;>
    · simp only [fullPathPixel, h1]
      simp [pass4Pixel, pass6Pixel, fillOnlyMask]
  · exfalso
    simp only [Bool.not_eq_true] at hdata
    rw [pass1Pixel_of_nonfill meta PixelMask.empty w0 praw hdata,
      pass1NonFill_fill] at hfill
    simp [PixelMask.empty] at hfill

/-- Witness for C3 at a concrete fill pixel. -/
theorem fill_exclusive_full_path_witness :
    (pass1Pixel meta0 PixelMask.empty 0 fillPix).1.fill = true
    ∧ (fullPathPixel meta0 0 0 0 0 0 0 0 PixelMask.empty 0 0 fillPix).1
        = fillOnlyMask
    ∧ (fullPathPixel meta0 0 0 0 0 0 0 0 PixelMask.empty 0 0 fillPix).2
        = CF_FILL_PIXEL := by
  have hfill : (pass1Pixel meta0 PixelMask.empty 0 fillPix).1.fill = true := by
    rw [pass1Pixel_fillPix meta0 (by norm_num [meta0, FILL_PIXEL])]
    rfl
  have h := fill_exclusive_full_path meta0 0 0 0 0 0 0 0 0 0 fillPix hfill
  exact ⟨hfill, h.2.1, h.2.2⟩

/-! ### C4 — the all-cloud shortcut -/

/-- C4.  Whenever `clear_ptm ≤ 0.1` (up to MINSIGMA) after pass 1, the
operation returns `t_templ = t_temph = -1.0` together with the pass-1
masks rewritten by the shortcut loop, skipping all remaining passes
(`engineResult` yields the shortcut branch), and the loop gives every
non-fill pixel SHADOW iff CLOUD is not set while preserving the other
bits. -/
theorem all_cloud_shortcut (meta : Meta) (pixels : List (Pix × PixelMask))
    (h : tookShortcut (pass1Image meta pixels) = true) :
    engineResult meta pixels =
      some { clearPtmV := clearPtm (pass1Image meta pixels), tTempl := -1,
             tTemph := -1,
             masks := (pass1Image meta pixels).masks.map shortcutPixel }
    ∧ ∀ m : PixelMask, m.fill = false →
        (shortcutPixel m).shadow = !m.cloud
        ∧ (shortcutPixel m).cloud = m.cloud
        ∧ (shortcutPixel m).fill = m.fill
        ∧ (shortcutPixel m).snow = m.snow
        ∧ (shortcutPixel m).water = m.water := by
  constructor
  · simp only [engineResult, h, if_true]
  · intro m _
    by_cases hc : m.cloud = true <;> simp [shortcutPixel, hc]

/-- Witness for C4: a one-pixel scene holding a saturated bright cloud
pixel has `clear_ptm = 0`, so the shortcut fires. -/
theorem all_cloud_shortcut_witness :
    tookShortcut (pass1Image meta0 [(cloudPix, PixelMask.empty)]) = true
    ∧ engineResult meta0 [(cloudPix, PixelMask.empty)] =
        some { clearPtmV := clearPtm (pass1Image meta0 [(cloudPix, PixelMask.empty)]),
               tTempl := -1, tTemph := -1,
               masks := (pass1Image meta0 [(cloudPix, PixelMask.empty)]).masks.map
                 shortcutPixel } := by
  have h : tookShortcut (pass1Image meta0 [(cloudPix, PixelMask.empty)]) = true := by
    norm_num [tookShortcut, clearPtm, pass1Image, pass1Go, pass1Pixel,
      pass1NonFill, subst1, substRefl, substTherm, substv, isFill, meta0,
      cloudPix, FILL_PIXEL, basicCloudTest, snowTest, waterTest, ndviOf,
      ndsiOf, visiMean, whitenessRaw, hotOf, satuBV, MINSIGMA, clearNone]
  exact ⟨h, (all_cloud_shortcut meta0 [(cloudPix, PixelMask.empty)] h).1⟩

/-! ### C5 — the all-fill scene -/

/-- Counterexample to C5 as stated: on a one-pixel all-fill scene
`image_data_counter = 0`, so line 342 computes `clear_ptm = 0.0f/0.0f`,
which is NaN rather than the claimed 0; the line-359 shortcut test is
then false, the full path runs, and its pass-2 land percentiles come out
buffered to -400 and 400 rather than the claimed `t_templ = t_temph = -1`. -/
theorem all_fill_scenario_cex :
    clearPtmF (pass1Image meta0 [(fillPix, PixelMask.empty)]) = none
    ∧ tookShortcutF (pass1Image meta0 [(fillPix, PixelMask.empty)]) = false
    ∧ tTemplEmptyLandSample ≠ -1
    ∧ tTemphEmptyLandSample ≠ -1 := by
  have h := pass1Go_all_fill meta0 (by norm_num [meta0, FILL_PIXEL]) 0
    [(fillPix, PixelMask.empty)] (by simp)
  simp only [pass1Image, h]
  refine ⟨rfl, rfl, ?_, ?_⟩ <;>
    norm_num [tTemplEmptyLandSample, tTemphEmptyLandSample, prctileEmptySample]

/-- C5, amended: for an all-fill input image (with metadata whose thermal
saturation sentinel differs from the fill value) the code computes
`clear_ptm = 0.0f/0.0f = NaN`, the shortcut test fails, and the full path
runs: every pass-2 thermal sample is empty whatever statistic bit is
chosen, so by the percentile collaborator's empty-sample contract the
exported percentiles are `t_templ = 0 - 400 = -400` and
`t_temph = 0 + 400 = 400`, and every pixel ends with exactly the FILL bit
set — SHADOW cleared — and `conf_mask = FILL_PIXEL`. -/
theorem all_fill_scenario (meta : Meta) (pixels : List (Pix × PixelMask))
    (hsane : meta.thermSatuRef ≠ FILL_PIXEL)
    (hfill : ∀ x ∈ pixels, x.1 = fillPix) :
    clearPtmF (pass1Image meta pixels) = none
    ∧ tookShortcutF (pass1Image meta pixels) = false
    ∧ (∀ bit : ClearMask → Bool,
        pass2LandSample meta bit
          ((pass1Image meta pixels).clears.zip (pixels.map fun x => x.1.therm))
          = [])
    ∧ tTemplEmptyLandSample = -400
    ∧ tTemphEmptyLandSample = 400
    ∧ ∀ (clrM wclrM tT fp wfp : ℚ) (fN fS : Int) (m0 : PixelMask)
        (conf0 : Nat) (w0 : ℚ), ∀ x ∈ pixels,
          fullPathPixel meta clrM wclrM tT fp wfp fN fS m0 conf0 w0 x.1
            = (fillOnlyMask, CF_FILL_PIXEL) := by
  have h := pass1Go_all_fill meta hsane 0 pixels hfill
  refine ⟨?_, ?_, ?_, ?_, ?_, ?_⟩
  · simp [pass1Image, h, clearPtmF]
  · simp [pass1Image, h, tookShortcutF, clearPtmF]
  · intro bit
    simp only [pass1Image, h, pass2LandSample]
    rw [List.filter_eq_nil_iff.mpr, List.map_nil]
    intro x hx
    have hcl : x.1 = clearFillOnly := by
      have hmem := (List.of_mem_zip hx).1
      simp only [List.mem_map] at hmem
      obtain ⟨a, _, ha⟩ := hmem
      exact ha.symm
    simp [hcl, clearFillOnly]
  · norm_num [tTemplEmptyLandSample, prctileEmptySample]
  · norm_num [tTemphEmptyLandSample, prctileEmptySample]
  · intro clrM wclrM tT fp wfp fN fS m0 conf0 w0 x hx
    rw [hfill x hx]
    simp only [fullPathPixel, pass1Pixel_fillPix meta hsane m0 w0]
    simp [pass4Pixel, pass6Pixel, fillOnlyMask]

/-- Witness for C5 at a concrete one-pixel all-fill scene with concrete
metadata. -/
theorem all_fill_scenario_witness :
    clearPtmF (pass1Image meta0 [(fillPix, fillOnlyMask)]) = none
    ∧ tookShortcutF (pass1Image meta0 [(fillPix, fillOnlyMask)]) = false
    ∧ tTemplEmptyLandSample = -400
    ∧ tTemphEmptyLandSample = 400
    ∧ fullPathPixel meta0 0 0 (-400) 0 0 0 0 fillOnlyMask 0 0 fillPix
        = (fillOnlyMask, CF_FILL_PIXEL) := by
  have h := all_fill_scenario meta0 [(fillPix, fillOnlyMask)]
    (by norm_num [meta0, FILL_PIXEL]) (by simp)
  exact ⟨h.1, h.2.1, h.2.2.2.1, h.2.2.2.2.1,
    h.2.2.2.2.2 0 0 (-400) 0 0 0 0 fillOnlyMask 0 0 (fillPix, fillOnlyMask)
      (by simp)⟩

/-! ### C6 — pass-3 whiteness versus pass-1 whiteness -/

/-- Inside the pass-1 cloud branch the threaded whiteness variable holds
exactly `pass1Whiteness`. -/
theorem pass1NonFill_whiteness (meta : Meta) (m0 : PixelMask) (w0 : ℚ)
    (p : Pix) (hb : basicCloudTest p = true) :
    (pass1NonFill meta m0 w0 p).2.2 = pass1Whiteness meta p := by
  simp [pass1NonFill, pass1Whiteness, hb]

/-- Counterexample to C6 as stated: a non-fill, non-water pixel whose
visible mean is zero and which enters the pass-1 cloud branch without
visible-band saturation gets whiteness 100 in pass 1 (line 259) but
whiteness 0 in pass 3's land branch (line 658). -/
theorem whiteness_zero_mean_cex :
    isFill (subst1 meta0 zeroMeanPix) = false
    ∧ basicCloudTest (subst1 meta0 zeroMeanPix) = true
    ∧ waterTest (subst1 meta0 zeroMeanPix) = false
    ∧ satuBV meta0 (subst1 meta0 zeroMeanPix) = false
    ∧ visiMean (subst1 meta0 zeroMeanPix) = 0
    ∧ pass1Whiteness meta0 (subst1 meta0 zeroMeanPix) = 100
    ∧ pass3Whiteness meta0 (subst1 meta0 zeroMeanPix) = 0 := by
  norm_num [isFill, subst1, substRefl, substTherm, substv, meta0, zeroMeanPix,
    FILL_PIXEL, basicCloudTest, waterTest, satuBV, visiMean, pass1Whiteness,
    pass3Whiteness, whitenessRaw, ndviOf, ndsiOf, MINSIGMA]

/-- C6, amended: pass 3's land-branch whiteness follows pass 1's rule —
same raw expression and same saturation override — except in the
zero-visible-mean case, where pass 1 uses 100 and pass 3 uses 0; so the
two values are equal whenever the visible mean is nonzero or a visible
band is saturated. -/
theorem whiteness_p3_agrees_p1 (meta : Meta) (p : Pix)
    (h : visiMean p ≠ 0 ∨ satuBV meta p = true) :
    pass3Whiteness meta p = pass1Whiteness meta p := by
  by_cases hs : satuBV meta p = true
  · simp [pass3Whiteness, pass1Whiteness, hs]
  · rcases h with h | h
    · simp [pass3Whiteness, pass1Whiteness, hs, h]
    · exact absurd h hs

/-- Witness for C6 at the vegetation pixel, whose visible mean is 500. -/
theorem whiteness_p3_agrees_p1_witness :
    visiMean vegPix ≠ 0
    ∧ pass3Whiteness meta0 vegPix = pass1Whiteness meta0 vegPix :=
  ⟨by norm_num [visiMean, vegPix],
   whiteness_p3_agrees_p1 meta0 vegPix
     (Or.inl (by norm_num [visiMean, vegPix]))⟩

/-! ### C7 — water/cloud disambiguation -/

/-- A non-fill pixel never leaves pass 6 with WATER and CLOUD both set. -/
theorem pass6Pixel_no_water_cloud (meta : Meta) (fN fS : Int) (praw : Pix)
    (m : PixelMask) (conf : Nat) (hf : m.fill = false) :
    ¬ ((pass6Pixel meta fN fS praw m conf).1.water = true
        ∧ (pass6Pixel meta fN fS praw m conf).1.cloud = true) := by
  simp only [pass6Pixel, hf, Bool.false_eq_true, if_false]
  split_ifs with h1 h2 h3 h4 <;> simp_all

/-- C7.  On the full six-pass path, after pass 6 the WATER and CLOUD bits
are never both set: a non-fill pixel entering pass 6 with both set leaves
it with WATER cleared and CLOUD still set (lines 1124-1129), and the
composed per-pixel pipeline from a cleared entry mask never returns a
mask with both bits. -/
theorem water_cloud_disambiguation (meta : Meta) (fN fS : Int) (praw : Pix) :
    (∀ (m : PixelMask) (conf : Nat), m.fill = false → m.water = true →
      m.cloud = true →
        (pass6Pixel meta fN fS praw m conf).1.water = false
        ∧ (pass6Pixel meta fN fS praw m conf).1.cloud = true)
    ∧ ∀ (clrM wclrM tT fp wfp : ℚ) (conf0 : Nat) (w0 : ℚ),
        ¬ ((fullPathPixel meta clrM wclrM tT fp wfp fN fS PixelMask.empty
              conf0 w0 praw).1.water = true
            ∧ (fullPathPixel meta clrM wclrM tT fp wfp fN fS PixelMask.empty
                conf0 w0 praw).1.cloud = true) := by
  constructor
  · intro m conf hf hw hc
    have hcl := (pass6Pixel_frame meta fN fS praw m conf).2.2
    constructor
    · simp only [pass6Pixel, hf, Bool.false_eq_true, if_false]
      split_ifs with h1 h2 h3 h4 <;> simp_all
    · rw [hcl, hc]
  · intro clrM wclrM tT fp wfp conf0 w0
    by_cases hdata : isFill (subst1 meta praw) = true
    · have h1 : (pass1Pixel meta PixelMask.empty w0 praw).1 = fillOnlyMask := by
        rw [pass1Pixel_of_fill meta PixelMask.empty w0 praw hdata]
      simp only [fullPathPixel, h1]
      simp [pass4Pixel, pass6Pixel, fillOnlyMask]
    · simp only [Bool.not_eq_true] at hdata
      have h1f : (pass1Pixel meta PixelMask.empty w0 praw).1.fill = false := by
        rw [pass1Pixel_of_nonfill meta PixelMask.empty w0 praw hdata,
          pass1NonFill_fill]
        rfl
      have h4f : (pass4Pixel meta clrM wclrM tT
          (pass1Pixel meta PixelMask.empty w0 praw).1 conf0 fp wfp
          praw.therm).1.fill = false := by
        rw [(pass4Pixel_frame meta clrM wclrM tT _ conf0 fp wfp praw.therm).1,
          h1f]
      exact pass6Pixel_no_water_cloud meta fN fS praw _ _ h4f

/-- Witness for C7: a concrete non-fill mask with WATER and CLOUD both set
leaves pass 6 with WATER cleared and CLOUD kept, and the full path on the
vegetation pixel ends without the WATER-and-CLOUD conflict. -/
theorem water_cloud_disambiguation_witness :
    ((pass6Pixel meta0 0 0 vegPix
        { fill := false, cloud := true, shadow := false, snow := false,
          water := true } 0).1.water = false
      ∧ (pass6Pixel meta0 0 0 vegPix
          { fill := false, cloud := true, shadow := false, snow := false,
            water := true } 0).1.cloud = true)
    ∧ ¬ ((fullPathPixel meta0 0 0 0 0 0 0 0 PixelMask.empty 0 0
            vegPix).1.water = true
          ∧ (fullPathPixel meta0 0 0 0 0 0 0 0 PixelMask.empty 0 0
              vegPix).1.cloud = true) :=
  ⟨(water_cloud_disambiguation meta0 0 0 vegPix).1
      { fill := false, cloud := true, shadow := false, snow := false,
        water := true } 0 rfl rfl rfl,
   (water_cloud_disambiguation meta0 0 0 vegPix).2 0 0 0 0 0 0 0⟩

/-! ### C8 — idempotence of pass 6 -/

/-- C8.  Applying the pass-6 per-pixel transformation twice with the same
filled data and band inputs yields the same `pixel_mask` entry and
`conf_mask` entry as applying it once. -/
theorem pass6_idempotent (meta : Meta) (fN fS : Int) (praw : Pix)
    (m : PixelMask) (conf : Nat) :
    pass6Pixel meta fN fS praw (pass6Pixel meta fN fS praw m conf).1
        (pass6Pixel meta fN fS praw m conf).2
      = pass6Pixel meta fN fS praw m conf := by
  by_cases hf : m.fill = true
  · simp [pass6Pixel, hf]
  · simp only [Bool.not_eq_true] at hf
    simp only [pass6Pixel, hf, Bool.false_eq_true, if_false]
    split_ifs with h1 h2 h3 h4 h5 h6 h7 h8 h9 h10 h11 <;> simp_all

/-! ### C9 — error-path buffer leaks -/

/-- C9 evaluation.  On the prctile failure path computing `t_templ`
(line 493) the operation returns `FAILURE` with `clear_mask`, `f_temp` and
`f_wtemp` still allocated; even the flood-fill failure path (lines
1040-1046), which does free the two filled buffers, still leaks
`clear_mask`; the successful return frees everything. -/
theorem error_path_leaks :
    liveAtFailure FailSite.prctileTempl = [Buf.clearMask, Buf.fTemp, Buf.fWtemp]
    ∧ liveAtFailure FailSite.floodFill = [Buf.clearMask]
    ∧ liveAtSuccess = [] := by
  exact ⟨rfl, rfl, rfl⟩

/-! ### C10 — the SNOW bit is written only in pass 1 -/

/-- C10.  The SNOW bit is written only in pass 1: the all-cloud shortcut
loop, pass 4 and pass 6 all leave it unchanged (passes 2, 3 and 5 never
write `pixel_mask`), so on both return paths the SNOW bit at the
operation's successful return equals its value at the end of pass 1. -/
theorem snow_frame (meta : Meta) (clrM wclrM tT fp wfp : ℚ) (fN fS : Int)
    (m : PixelMask) (conf conf0 : Nat) (w0 : ℚ) (praw : Pix) :
    (shortcutPixel m).snow = m.snow
    ∧ (pass4Pixel meta clrM wclrM tT m conf fp wfp praw.therm).1.snow = m.snow
    ∧ (pass6Pixel meta fN fS praw m conf).1.snow = m.snow
    ∧ (fullPathPixel meta clrM wclrM tT fp wfp fN fS m conf0 w0 praw).1.snow
        = (pass1Pixel meta m w0 praw).1.snow := by
  refine ⟨?_, (pass4Pixel_frame meta clrM wclrM tT m conf fp wfp praw.therm).2.2.1,
    (pass6Pixel_frame meta fN fS praw m conf).2.1, ?_⟩
  · by_cases hc : m.cloud = true <;> simp [shortcutPixel, hc]
  · simp only [fullPathPixel]
    rw [(pass6Pixel_frame meta fN fS praw _ _).2.1,
      (pass4Pixel_frame meta clrM wclrM tT _ conf0 fp wfp praw.therm).2.2.1]

end Cfmask
